import Mathlib

/-!
Shallow embedding of the data-fetching layer of the Movie-Hub frontend
(src/frontend/src/hooks/useMovies.js): the memoizing GET cache, the query
string construction, the per-hook fetch paths, and the abort machinery.
All definitions are translated from the JavaScript source; values are
modelled by an inductive JavaScript-value type.
-/

namespace MovieHub

/-- Model of a JavaScript value as it flows through the hooks layer:
`undefined`, `null`, booleans, numbers (integers suffice for this code),
strings, arrays and plain objects (ordered field lists, as produced by
object literals). -/
inductive JVal where
  | undefined : JVal
  | jnull : JVal
  | b (v : Bool) : JVal
  | n (v : Int) : JVal
  | s (v : String) : JVal
  | arr (elems : List JVal) : JVal
  | obj (fields : List (String × JVal)) : JVal

/-- JavaScript truthiness of a value (`if (v)`, `v || w`):
`undefined`, `null`, `false`, `0` and the empty string are falsy. -/
def JVal.truthy : JVal → Bool
  | .undefined => false
  | .jnull => false
  | .b v => v
  | .n v => v != 0
  | .s v => v != ""
  | .arr _ => true
  | .obj _ => true

/-- Optional-chaining property access `v?.key`: yields the field when `v`
is an object that has it, and `undefined` otherwise (never throws). -/
def JVal.optGet : JVal → String → JVal
  | .obj fields, key =>
    match fields.find? (fun kv => kv.1 == key) with
    | some kv => kv.2
    | none => .undefined
  | _, _ => .undefined

/-- A thrown JavaScript error as the catch blocks inspect it: its `name`,
its `message`, and (for axios errors carrying a server reply) `response`,
an axios response object (`undefined` when absent). -/
structure JsError where
  name : String
  message : String
  response : JVal

/-- Plain property access `v.key`: throws a TypeError when the receiver is
`undefined` or `null`; on an object yields the field (or `undefined`);
property access on other primitives yields `undefined` here (no boxed
properties are used by this code). -/
def JVal.getStrict : JVal → String → Except JsError JVal
  | .undefined, key =>
    .error ⟨"TypeError",
      "Cannot read properties of undefined (reading " ++ key ++ ")", .undefined⟩
  | .jnull, key =>
    .error ⟨"TypeError",
      "Cannot read properties of null (reading " ++ key ++ ")", .undefined⟩
  | .obj fields, key =>
    .ok (match fields.find? (fun kv => kv.1 == key) with
         | some kv => kv.2
         | none => .undefined)
  | _, _ => .ok .undefined

mutual

/-- JavaScript string coercion `String(v)` for the values appended to
`URLSearchParams` (strings, numbers, booleans in this code; an array
stringifies as its comma-joined elements). -/
def JVal.asString : JVal → String
  | .undefined => "undefined"
  | .jnull => "null"
  | .b v => if v then "true" else "false"
  | .n v => toString v
  | .s v => v
  | .arr elems => JVal.asStringJoin elems
  | .obj _ => "[object Object]"

/-- Comma-joined string coercion of a list of values (Array toString). -/
def JVal.asStringJoin : List JVal → String
  | [] => ""
  | [x] => x.asString
  | x :: y :: rest => x.asString ++ "," ++ JVal.asStringJoin (y :: rest)

end

/-- JavaScript `a || b`: `a` when truthy, else `b`. -/
def jsOr (a fallbackVal : JVal) : JVal := if a.truthy then a else fallbackVal

/-- Error message extraction used by every catch block:
`err.response?.data?.message || fallback` (useMovies.js lines 100, 150,
177, 233, 258, 301, 333). -/
def fetchErrorMsg (err : JsError) (fallback : String) : JVal :=
  jsOr ((err.response.optGet "data").optGet "message") (.s fallback)

/-! ### Query-string construction

`fetchMovies` (useMovies.js lines 66-76) and `fetchSeries` (lines 282-288)
build a `URLSearchParams` by iterating `Object.entries(filters)` and
appending only entries whose value is not `undefined`, `null` or the empty
string; `fetchMovies` then unconditionally appends
`limit = filters.limit || 12`. A filters object is modelled as its entry
list (object keys are unique, but no theorem below needs that). -/

/-- Condition of the filter loop (lines 70, 285):
`value !== undefined && value !== null && value !== ''` (strict equality
with the empty string holds only for the empty string itself). -/
def keptFilter : JVal → Bool
  | .undefined => false
  | .jnull => false
  | .b _ => true
  | .n _ => true
  | .s v => v != ""
  | .arr _ => true
  | .obj _ => true

/-- The filter loop (lines 69-73 and 284-288): appends, in entry order, the
kept entries with their values coerced to strings. -/
def filterParams : List (String × JVal) → List (String × String)
  | [] => []
  | kv :: rest =>
    if keptFilter kv.2 then (kv.1, kv.2.asString) :: filterParams rest
    else filterParams rest

/-- Property lookup `filters.key` on the filters object. -/
def jsLookup (filters : List (String × JVal)) (key : String) : JVal :=
  match filters.find? (fun kv => kv.1 == key) with
  | some kv => kv.2
  | none => .undefined

/-- The params list built by `fetchMovies` (lines 66-76): the filter loop
followed by the unconditional `params.append('limit', filters.limit || 12)`. -/
def moviesParams (filters : List (String × JVal)) : List (String × String) :=
  filterParams filters ++ [("limit", (jsOr (jsLookup filters "limit") (.n 12)).asString)]

/-- The params list built by `fetchSeries` (lines 282-288): only the filter
loop; no default limit is appended. -/
def seriesParams (filters : List (String × JVal)) : List (String × String) :=
  filterParams filters

/-- Serialization `params.toString()` of a `URLSearchParams`: pairs joined
as `k=v` with `&`. (Percent-encoding is the identity on every concrete key
and value appearing in the theorems below.) -/
def queryString (params : List (String × String)) : String :=
  String.intercalate "&" (params.map (fun kv => kv.1 ++ "=" ++ kv.2))

/-- The URL requested by `fetchMovies` (line 79). -/
def moviesUrl (filters : List (String × JVal)) : String :=
  "/movies?" ++ queryString (moviesParams filters)

/-- The URL requested by `fetchSeries` (line 290). -/
def seriesUrl (filters : List (String × JVal)) : String :=
  "/movies/series?" ++ queryString (seriesParams filters)

/-! ### The memoizing GET wrapper (useMovies.js lines 16-41)

`cachedApi.get(url, options)` keys the module-level `cache` Map by
`url + "?" + JSON.stringify(options)`. On a hit younger than 300000 ms it
returns the stored `data`; otherwise it awaits `api.get`, stores
`\x7b data: response.data, timestamp: Date.now() \x7d` under the key, and
returns `response`. The network is modelled by a function from URL to the
server reply body (or a thrown error); failed requests propagate before
the cache write, so they are never cached. -/

/-- Model of the axios response object resolved by `api.get`: its `data`
field holds the reply body (`status`/`statusText` stand in for the further
axios metadata fields, which no code here reads). -/
def axiosResponse (body : JVal) : JVal :=
  .obj [("data", body), ("status", .n 200), ("statusText", .s "OK")]

/-- One entry of the module-level cache Map (lines 34-37). -/
structure CacheEntry where
  data : JVal
  timestamp : Nat

/-- The module-level cache Map, as an association list keyed by cache key. -/
abbrev Cache : Type := List (String × CacheEntry)

/-- Map.set: overwrite the entry under the key, or append a new one. -/
def cacheSet (c : Cache) (key : String) (e : CacheEntry) : Cache :=
  if (List.any c fun kv => kv.1 == key) then
    List.map (fun kv => if kv.1 == key then (key, e) else kv) c
  else List.append c [(key, e)]

/-- Result of an awaited `cachedApi.get` call that did not throw: the value
the await resolves to, whether a network request was issued, and the cache
afterwards. -/
structure CachedGetOk where
  value : JVal
  networkCall : Bool
  cache : Cache

/-- Translation of `cachedApi.get` (lines 20-40). `net` maps a URL to the
body the server replies with (or the error the request rejects with);
`now` is `Date.now()` during this call. -/
def cachedGet (net : String → Except JsError JVal) (now : Nat)
    (c : Cache) (url : String) (optionsJson : String) : Except JsError CachedGetOk :=
  let cacheKey := url ++ "?" ++ optionsJson
  let freshHit : Option JVal :=
    match List.find? (fun kv => kv.1 == cacheKey) c with
    | some kv => if now - kv.2.timestamp < 300000 then some kv.2.data else none
    | none => none
  match freshHit with
  | some data => .ok ⟨data, false, c⟩
  | none =>
    match net url with
    | .error err => .error err
    | .ok body => .ok ⟨axiosResponse body, true, cacheSet c cacheKey ⟨body, now⟩⟩

/-! ### The movies list hook `useMovies` (useMovies.js lines 43-132) -/

/-- The five state cells of `useMovies` (lines 44-48); `pagination` starts
as `null` and is set to an object literal on success. -/
structure MoviesState where
  movies : JVal
  loading : Bool
  error : JVal
  pagination : JVal
  isDataLoaded : Bool

/-- Initial `useMovies` state: `movies = []`, `loading = true`,
`error = null`, `pagination = null`, `isDataLoaded = false`. -/
def initialMoviesState : MoviesState :=
  ⟨.arr [], true, .jnull, .jnull, false⟩

/-- Serialization `JSON.stringify(\x7b signal: abortControllerRef.current.signal \x7d)`
used in the cache key for the options object of line 80: an AbortSignal has
no own enumerable properties, so it stringifies to an empty object. -/
def signalOptionsJson : String := "\x7b\"signal\":\x7b\x7d\x7d"

/-- Success path of `fetchMovies` (lines 86-93): `setMovies(response.data.movies)`,
`setPagination(\x7b total, page, pages \x7d from response.data)`, `setError(null)`,
`setIsDataLoaded(true)`. The first property access on `response.data`
throws a TypeError when that value is `undefined` or `null` — which is the
case whenever `cachedApi.get` served a fresh cache hit, since the hit
returns the stored body rather than a response object. A throw here is
caught by the same catch block as a network error. -/
def applyMoviesResponse (response : JVal) (s : MoviesState) : Except JsError MoviesState := do
  let d ← response.getStrict "data"
  let mv ← d.getStrict "movies"
  let tot ← d.getStrict "total"
  let pg ← d.getStrict "page"
  let pgs ← d.getStrict "pages"
  pure { s with movies := mv,
                pagination := .obj [("total", tot), ("page", pg), ("pages", pgs)],
                error := .jnull,
                isDataLoaded := true }

/-- The catch block of `fetchMovies` (lines 94-100): an error whose `name`
is exactly the string AbortError returns early without touching state;
any other error sets `error` to the extracted message. The finally block
is applied by `fetchMoviesStep`. -/
def catchMovies (err : JsError) (s : MoviesState) : MoviesState :=
  if err.name == "AbortError" then s
  else { s with error := fetchErrorMsg err "Failed to fetch movies" }

/-- Result of one `fetchMovies` invocation. -/
structure FetchMoviesResult where
  state : MoviesState
  cache : Cache
  url : String
  networkCall : Bool

/-- Translation of one invocation of `fetchMovies(isInitial)` (lines 53-105)
run to completion: optional `setLoading(true)`, query-string construction,
the awaited `cachedApi.get`, then the success application or the catch
block, and in every path the finally block `setLoading(false)`. -/
def fetchMoviesStep (filters : List (String × JVal)) (isInitial : Bool)
    (net : String → Except JsError JVal) (now : Nat)
    (c : Cache) (s : MoviesState) : FetchMoviesResult :=
  let s0 := if isInitial then { s with loading := true } else s
  let url := moviesUrl filters
  match cachedGet net now c url signalOptionsJson with
  | .ok r =>
    match applyMoviesResponse r.value s0 with
    | .ok s1 =>
      ⟨{ s1 with loading := false }, r.cache, url, r.networkCall⟩
    | .error err =>
      ⟨{ catchMovies err s0 with loading := false }, r.cache, url, r.networkCall⟩
  | .error err =>
    ⟨{ catchMovies err s0 with loading := false }, c, url, true⟩

/-- Error an axios request rejects with when its AbortController signal is
aborted. Modelled from axios (the HTTP client this code configures at
lines 6-14): cancellation rejects with a CanceledError whose `name` is the
string CanceledError and whose `message` is the string canceled, carrying
no `response`; axios does not use the DOM name AbortError. -/
def axiosCanceledError : JsError :=
  ⟨"CanceledError", "canceled", .undefined⟩

/-! ### Effect scheduling of the list hooks -/

/-- What a run of a list-hook effect body does: call the fetch function
right away, or schedule it on a debounce timer. -/
inductive HookEffectAction where
  | callFetch (isInitial : Bool)
  | scheduleFetch (delayMs : Nat) (isInitial : Bool)
deriving DecidableEq, Repr

/-- Body of the `useMovies` effect (lines 109-119), run on mount and on
every filters change: on the first run it calls `fetchMovies(true)`
immediately and clears the initial-load ref; on later runs it clears any
pending timer and schedules `fetchMovies(false)` after 150 ms. Returns the
updated ref value and the emitted actions. -/
def useMoviesEffectBody (isInitialLoad : Bool) : Bool × List HookEffectAction :=
  if isInitialLoad then (false, [.callFetch true])
  else (isInitialLoad, [.scheduleFetch 150 false])

/-- Body of the `useSeries` effect (lines 307-312), run on mount and on
every filters change: only when the initial-load ref is still set does it
call `fetchSeries(true)`; otherwise it does nothing — no fetch call and no
timer. -/
def useSeriesEffectBody (isInitialLoad : Bool) : Bool × List HookEffectAction :=
  if isInitialLoad then (false, [.callFetch true])
  else (isInitialLoad, [])

/-- Actions accumulated over `n` runs of the `useSeries` effect (run 1 is
the mount, each later run is a filters change). -/
def seriesEffectTrace : Nat → Bool × List HookEffectAction
  | 0 => (true, [])
  | n + 1 =>
    let acc := seriesEffectTrace n
    let step := useSeriesEffectBody acc.1
    (step.1, acc.2 ++ step.2)

/-! ### Identifier scopes

JavaScript name resolution matters in two places of useMovies.js: the
catch block of `useMovie` mentions `params` (line 149) and the `refetch`
closure of `useStats` mentions `fetchStats` (line 267). The scope lists
below enumerate, from the source file, every identifier visible at those
program points: the import bindings (line 1), the module-level
declarations, the browser globals the file uses, and the local bindings of
the enclosing hook. -/

/-- Names visible everywhere in the module: imports (line 1), module-level
consts (`API_URL`, `api`, `cache`, `cachedApi`, the exported functions),
and the globals the file refers to. -/
def moduleScope : List String :=
  ["useState", "useEffect", "useCallback", "useRef", "axios",
   "API_URL", "api", "cache", "cachedApi",
   "useMovies", "useMovie", "useRelatedMovies", "useSearchSuggestions",
   "useCategories", "useStats", "useSeries", "useSeriesDetails",
   "incrementDownloadCount", "createMovie", "updateMovie", "deleteMovie",
   "toggleMovieStatus",
   "console", "Date", "JSON", "Map", "URLSearchParams", "performance",
   "AbortController", "setTimeout", "clearTimeout", "encodeURIComponent"]

/-- Names visible inside the catch block of `useMovie`s `fetchMovie`
(lines 146-150): the module scope, the hook parameter and state bindings
(lines 134-137), the local `fetchMovie` (line 140), and the caught `err`.
Nothing in `useMovie` binds `params`. -/
def useMovieCatchScope : List String :=
  moduleScope ++
  ["id", "movie", "setMovie", "loading", "setLoading", "error", "setError",
   "fetchMovie", "err"]

/-- Names visible at the return expression of `useStats` (line 267): the
module scope and the state bindings (lines 246-248). `fetchStats` is
declared inside the mount-effect callback (lines 251-262) and is local to
it. -/
def useStatsReturnScope : List String :=
  moduleScope ++
  ["stats", "setStats", "loading", "setLoading", "error", "setError"]

/-- JavaScript identifier resolution: an identifier not bound in scope
evaluates to a thrown ReferenceError. -/
def resolveName (scope : List String) (name : String) : Except String Unit :=
  if scope.contains name then .ok ()
  else .error ("ReferenceError: " ++ name ++ " is not defined")

/-- Outcome of running a code path of a hook: it either completes, or an
exception escapes it (carrying the state after any finally block ran). -/
inductive ExecOutcome (σ : Type) where
  | completed (s : σ)
  | escaped (exn : String) (s : σ)

/-! ### The single-movie hook `useMovie` (useMovies.js lines 134-162) -/

/-- The three state cells of `useMovie` (lines 135-137). -/
structure UseMovieState where
  movie : JVal
  loading : Bool
  error : JVal

/-- Initial `useMovie` state: `movie = null`, `loading = true`,
`error = null`. -/
def initialUseMovieState : UseMovieState := ⟨.jnull, true, .jnull⟩

/-- Failure path of `useMovie`s `fetchMovie` (catch block lines 146-150,
finally lines 151-153): the catch logs twice, then the third
`console.error` interpolates the template literal
`${API_URL}/movies?${params.toString()}`, which resolves `API_URL` and
`params` in the scope of the block before `setError` is reached. A
resolution failure throws; the throw skips `setError`, the finally still
runs `setLoading(false)`, and the exception escapes the async function as
an unhandled promise rejection. -/
def useMovieOnFailure (err : JsError) (s : UseMovieState) : ExecOutcome UseMovieState :=
  let evalCatch : Except String JVal := do
    let _ ← resolveName useMovieCatchScope "API_URL"
    let _ ← resolveName useMovieCatchScope "params"
    pure (fetchErrorMsg err "Failed to fetch movies")
  match evalCatch with
  | .ok msg => .completed { s with error := msg, loading := false }
  | .error exn => .escaped exn { s with loading := false }

/-! ### The stats hook `useStats` (useMovies.js lines 245-268) -/

/-- The three state cells of `useStats` (lines 246-248). -/
structure StatsState where
  stats : JVal
  loading : Bool
  error : JVal

/-- Invoking the `refetch` closure returned by `useStats` (line 267): its
body `fetchStats()` resolves the identifier `fetchStats` in the scope of
the `useStats` body. When resolution fails the call throws before any
state setter can run, leaving the state untouched. -/
def useStatsRefetchInvoke (s : StatsState) : ExecOutcome StatsState :=
  match resolveName useStatsReturnScope "fetchStats" with
  | .ok _ => .completed s
  | .error exn => .escaped exn s

/-! ### The search-suggestions hook (useMovies.js lines 191-218) -/

/-- The two state cells of `useSearchSuggestions` (lines 192-193); the hook
has no error cell at all. -/
structure SuggestState where
  suggestions : JVal
  loading : Bool

/-- Property `query.length` read by the guard on line 197 (the guard
short-circuits, so it is only read on truthy values — strings here). -/
def jsStrLength : JVal → Nat
  | .s v => v.length
  | _ => 0

/-- Translation of one run of `fetchSuggestions` (lines 196-211): the guard
`!query || query.length < 2` resets the suggestion list and returns
without a request; otherwise the request is issued (`encodeURIComponent`
is the identity on the concrete queries used below), a success stores
`response.data`, a failure stores the empty list, and the finally clears
`loading`. The second component reports whether a network request was
issued. -/
def fetchSuggestionsStep (query : JVal) (net : String → Except JsError JVal)
    (s : SuggestState) : SuggestState × Bool :=
  if query.truthy = false ∨ jsStrLength query < 2 then
    ({ s with suggestions := .arr [] }, false)
  else
    match net ("/movies/search-suggestions?q=" ++ query.asString) with
    | .ok body => (⟨body, false⟩, true)
    | .error _ => (⟨.arr [], false⟩, true)

/-! ### Abort machinery of `useMovies` (useMovies.js lines 50-59, 94-104)

The shared mutable cell `abortControllerRef.current` is written at three
places: a starting fetch aborts the controller it finds there and installs
its own (lines 55-59), and the finally block of every fetch sets the cell
to null unconditionally (line 103) — also when the finishing fetch is an
aborted one whose successor has already installed its own controller. The
machine below tracks the cell, the issued requests, which were aborted,
and in which order responses were applied to state. -/

/-- State of the abort machinery of one `useMovies` instance. Requests are
numbered in issuance order; `controllerRef` holds the request owning
`abortControllerRef.current` (none models null); `pending` are issued
requests whose promise has not settled; `aborted` are requests whose
controller was aborted; `applied` records, most recent first, the requests
whose response reached the state setters. -/
structure AbortMachine where
  nextId : Nat
  controllerRef : Option Nat
  pending : List Nat
  aborted : List Nat
  applied : List Nat
deriving DecidableEq, Repr

/-- Initial machine: no request issued, `abortControllerRef.current` null. -/
def AbortMachine.init : AbortMachine := ⟨0, none, [], [], []⟩

/-- Observable events of the machine: a `fetchMovies` call starting (its
synchronous prefix), and the promise of request `i` settling — normally,
or rejected with the cancellation error after an abort. -/
inductive FetchEvent where
  | fetchStart
  | settleOk (i : Nat)
  | settleAborted (i : Nat)
deriving DecidableEq, Repr

/-- One transition. `fetchStart` (lines 54-59): abort the controller held
in the ref, if any, then install a fresh controller and issue the request.
`settleOk i` (valid for a pending, unaborted request): the success path
applies the response (lines 86-93) and the finally nulls the ref
unconditionally (line 103). `settleAborted i` (valid for a pending,
aborted request): the rejection reaches the catch, the response is never
applied, and the finally likewise nulls the ref. -/
def abortStep (m : AbortMachine) : FetchEvent → Option AbortMachine
  | .fetchStart =>
    let m1 := match m.controllerRef with
      | some i => { m with aborted := i :: m.aborted }
      | none => m
    some { m1 with controllerRef := some m.nextId,
                   pending := m.nextId :: m1.pending,
                   nextId := m.nextId + 1 }
  | .settleOk i =>
    if m.pending.contains i && !(m.aborted.contains i) then
      some { m with pending := m.pending.erase i,
                    applied := i :: m.applied,
                    controllerRef := none }
    else none
  | .settleAborted i =>
    if m.pending.contains i && m.aborted.contains i then
      some { m with pending := m.pending.erase i,
                    controllerRef := none }
    else none

/-- Run a sequence of events from the initial machine; none when an event
is invalid in its state. -/
def runAbortMachine (events : List FetchEvent) : Option AbortMachine :=
  events.foldl (fun acc e => acc.bind (fun m => abortStep m e)) (some AbortMachine.init)

/-- Requests currently issued, unsettled and unaborted — the in-flight
network requests. -/
def AbortMachine.inFlight (m : AbortMachine) : List Nat :=
  m.pending.filter (fun i => !(m.aborted.contains i))

/-! ### Helper lemmas -/

/-- A truthy value passes the filter-loop condition (truthiness excludes
`undefined`, `null` and the empty string, among others). -/
theorem keptFilter_of_truthy (v : JVal) (h : v.truthy = true) : keptFilter v = true := by
  cases v <;> simp_all [JVal.truthy, keptFilter]

/-- Membership in the output of the filter loop: a pair is appended exactly
for the filter entries that pass the condition, with the value coerced to
a string. -/
theorem mem_filterParams (filters : List (String × JVal)) (k v : String) :
    (k, v) ∈ filterParams filters ↔
      ∃ w, (k, w) ∈ filters ∧ keptFilter w = true ∧ v = w.asString := by
  induction filters with
  | nil => simp [filterParams]
  | cons kv rest ih =>
    obtain ⟨k0, w0⟩ := kv
    by_cases h : keptFilter w0 = true
    · simp only [filterParams]
      rw [if_pos h]
      simp only [List.mem_cons, Prod.mk.injEq, ih]
      constructor
      · rintro (⟨hk, hv⟩ | ⟨w, hw, hkept, hv⟩)
        · exact ⟨w0, Or.inl ⟨hk, rfl⟩, h, hv⟩
        · exact ⟨w, Or.inr hw, hkept, hv⟩
      · rintro ⟨w, ⟨hk, hww⟩ | hw, hkept, hv⟩
        · subst hk; subst hww; exact Or.inl ⟨rfl, hv⟩
        · exact Or.inr ⟨w, hw, hkept, hv⟩
    · simp only [filterParams]
      rw [if_neg h]
      simp only [List.mem_cons, Prod.mk.injEq, ih]
      constructor
      · rintro ⟨w, hw, hkept, hv⟩
        exact ⟨w, Or.inr hw, hkept, hv⟩
      · rintro ⟨w, ⟨hk, hww⟩ | hw, hkept, hv⟩
        · subst hww; exact absurd hkept h
        · exact ⟨w, hw, hkept, hv⟩

/-! ### Claim theorems -/

/-- C1: a second identical `cachedApi.get` within 300000 ms issues no
network call and leaves the cache unchanged, and after the window a new
call is issued and the entry replaced — but the value a fresh-cache hit
returns is the stored reply body, not a response object of the shape the
original call returned: reading `data` off the hit value yields
`undefined` while the original value carried the body there, and the two
values differ. Evaluated at a first call at time 0, a hit at time 1000,
and a miss at time 300000 against a changed server reply. -/
theorem C1_cache_hit_returns_body :
    cachedGet (fun _ => .ok (JVal.obj [("movies", JVal.arr [])])) 0 []
        "/movies?limit=12" signalOptionsJson
      = .ok ⟨axiosResponse (JVal.obj [("movies", JVal.arr [])]), true,
             [("/movies?limit=12?" ++ signalOptionsJson,
               ⟨JVal.obj [("movies", JVal.arr [])], 0⟩)]⟩
    ∧ cachedGet (fun _ => .ok (JVal.obj [("movies", JVal.arr [])])) 1000
        [("/movies?limit=12?" ++ signalOptionsJson,
          ⟨JVal.obj [("movies", JVal.arr [])], 0⟩)]
        "/movies?limit=12" signalOptionsJson
      = .ok ⟨JVal.obj [("movies", JVal.arr [])], false,
             [("/movies?limit=12?" ++ signalOptionsJson,
               ⟨JVal.obj [("movies", JVal.arr [])], 0⟩)]⟩
    ∧ cachedGet (fun _ => .ok (JVal.obj [("movies", JVal.arr [JVal.n 1])])) 300000
        [("/movies?limit=12?" ++ signalOptionsJson,
          ⟨JVal.obj [("movies", JVal.arr [])], 0⟩)]
        "/movies?limit=12" signalOptionsJson
      = .ok ⟨axiosResponse (JVal.obj [("movies", JVal.arr [JVal.n 1])]), true,
             [("/movies?limit=12?" ++ signalOptionsJson,
               ⟨JVal.obj [("movies", JVal.arr [JVal.n 1])], 300000⟩)]⟩
    ∧ (axiosResponse (JVal.obj [("movies", JVal.arr [])])).optGet "data"
      = JVal.obj [("movies", JVal.arr [])]
    ∧ (JVal.obj [("movies", JVal.arr [])]).optGet "data" = JVal.undefined
    ∧ JVal.obj [("movies", JVal.arr [])]
      ≠ axiosResponse (JVal.obj [("movies", JVal.arr [])]) := by
  refine ⟨rfl, rfl, rfl, rfl, rfl, ?_⟩
  intro h
  injection h with hfields
  simp at hfields

/-- C2: when the GET of `useMovie` fails, the catch block does not complete:
for every error and every prior state, evaluating the catch throws
`ReferenceError: params is not defined` before `setError` is reached, so
the error state is left unchanged, only `loading` is cleared by the
finally, and the exception escapes the hook — contradicting the claim that
the hook always sets the error state and never rethrows. -/
theorem C2_useMovie_catch_reference_error (err : JsError) (s : UseMovieState) :
    useMovieOnFailure err s
      = .escaped "ReferenceError: params is not defined" { s with loading := false } := rfl

/-- C3 counterexample: after the mount run plus one filter-change run of
the `useSeries` effect, the only action ever emitted is the single initial
`fetchSeries(true)` call — the filter change neither fetches nor schedules
a 150 ms debounce timer, contradicting the claim that every filter change
triggers a debounced fetch. -/
theorem C3_filter_change_no_fetch :
    seriesEffectTrace 2 = (false, [HookEffectAction.callFetch true]) := rfl

/-- C3 amended: the first invocation of `useSeries` fetches immediately,
and across the mount run plus any number of filter-change effect runs,
exactly that one initial fetch is ever issued and no debounce timer is
ever scheduled; filter changes after mount trigger no new fetch. -/
theorem C3_series_fetches_once (n : Nat) :
    (seriesEffectTrace (n + 1)).1 = false
    ∧ (seriesEffectTrace (n + 1)).2 = [HookEffectAction.callFetch true] := by
  induction n with
  | zero => exact ⟨rfl, rfl⟩
  | succ n ih =>
    obtain ⟨h1, h2⟩ := ih
    constructor
    · show (useSeriesEffectBody (seriesEffectTrace (n + 1)).1).1 = false
      rw [h1]
      rfl
    · show (seriesEffectTrace (n + 1)).2
          ++ (useSeriesEffectBody (seriesEffectTrace (n + 1)).1).2
          = [HookEffectAction.callFetch true]
      rw [h1, h2]
      rfl

/-- C4: a `fetchMovies` request that terminates by abortion leaves movies
and pagination unchanged and clears `loading`, but it does set the error
state: the catch guard matches only the name AbortError, while the
cancellation error the aborted request rejects with carries the axios name
CanceledError, so the fallback message is stored — contradicting the claim
that the error state is not set. Stated for every filters object, time and
prior state, with an empty cache. -/
theorem C4_aborted_request_sets_error (filters : List (String × JVal))
    (now : Nat) (s : MoviesState) :
    (fetchMoviesStep filters false (fun _ => .error axiosCanceledError) now [] s).state
      = { s with error := JVal.s "Failed to fetch movies", loading := false }
    ∧ catchMovies ⟨"AbortError", "aborted", JVal.undefined⟩ s = s
    ∧ axiosCanceledError.name ≠ "AbortError" := by
  exact ⟨rfl, rfl, by decide⟩

/-- C5: the claimed at-most-one-in-flight and in-issuance-order guarantees
fail. In the run below, request 0 is superseded and aborted by request 1;
when the rejected request 0 settles, its finally block nulls the shared
controller ref, so the next fetch (request 2) finds no controller and
aborts nothing: requests 1 and 2 are then both in flight, and request 1
(never aborted, issued earlier) is applied after request 2 — a stale
response overwriting a fresher one. -/
theorem C5_two_in_flight_stale_applied :
    Option.map AbortMachine.inFlight
        (runAbortMachine [.fetchStart, .fetchStart, .settleAborted 0, .fetchStart])
      = some [2, 1]
    ∧ Option.map AbortMachine.applied
        (runAbortMachine [.fetchStart, .fetchStart, .settleAborted 0, .fetchStart,
                          .settleOk 2, .settleOk 1])
      = some [1, 2]
    ∧ Option.map AbortMachine.aborted
        (runAbortMachine [.fetchStart, .fetchStart, .settleAborted 0, .fetchStart,
                          .settleOk 2, .settleOk 1])
      = some [0] := by
  exact ⟨rfl, rfl, rfl⟩

/-- Concrete three-item server reply body used by the end-to-end run of the
movies list hook. -/
def dramaReplyBody : JVal :=
  .obj [("movies", .arr [.obj [("title", .s "A")],
                         .obj [("title", .s "B")],
                         .obj [("title", .s "C")]]),
        ("total", .n 3), ("page", .n 1), ("pages", .n 1)]

/-- The initial fetch of `useMovies(\x7b genre: drama \x7d)` against a server
replying with `dramaReplyBody`, from a mounted hook with an empty cache. -/
def dramaFetch : FetchMoviesResult :=
  fetchMoviesStep [("genre", JVal.s "drama")] true
    (fun _ => .ok dramaReplyBody) 0 [] initialMoviesState

/-- C6: on mount, `useMovies` with the single filter genre=drama calls
`fetchMovies(true)` immediately, issues a GET to
`/movies?genre=drama&limit=12`, and when the server replies with three
movies and `total=3, page=1, pages=1`, the resulting hook state has
`loading = false`, `error = null`, the three movies as the data list, and
pagination `total=3, page=1, pages=1`. -/
theorem C6_end_to_end_drama :
    useMoviesEffectBody true = (false, [HookEffectAction.callFetch true])
    ∧ dramaFetch.url = "/movies?genre=drama&limit=12"
    ∧ dramaFetch.networkCall = true
    ∧ dramaFetch.state
      = { movies := .arr [.obj [("title", .s "A")],
                          .obj [("title", .s "B")],
                          .obj [("title", .s "C")]],
          loading := false,
          error := .jnull,
          pagination := .obj [("total", .n 3), ("page", .n 1), ("pages", .n 1)],
          isDataLoaded := true } := by
  exact ⟨rfl, rfl, rfl, rfl⟩

/-- C7 counterexample: for the filters object with the single entry
genre=drama (which provides no limit), the query string `fetchSeries`
builds is exactly `genre=drama` and carries no `limit` parameter at all —
contradicting the claim that a list-fetch hook always appends `limit=12`
when the filters provide none. -/
theorem C7_series_no_default_limit :
    queryString (seriesParams [("genre", JVal.s "drama")]) = "genre=drama"
    ∧ List.all (seriesParams [("genre", JVal.s "drama")])
        (fun kv => !(kv.1 == "limit")) = true := by
  exact ⟨rfl, rfl⟩

/-- C7 amended: for every filters object passed to `useMovies` or
`useSeries`, a pair occurs in the query parameters of the filter loop
exactly when it comes from an entry whose value is not `undefined`, `null`
or the empty string (coerced to a string); the `useMovies` params are
those of `useSeries` followed by the unconditional limit append; and when
the filters provide no limit, `useMovies` (and only it) appends
`limit=12`. -/
theorem C7_filters_excluded_amended (filters : List (String × JVal)) (k v : String) :
    ((k, v) ∈ seriesParams filters ↔
        ∃ w, (k, w) ∈ filters ∧ keptFilter w = true ∧ v = w.asString)
    ∧ moviesParams filters
      = seriesParams filters
        ++ [("limit", (jsOr (jsLookup filters "limit") (JVal.n 12)).asString)]
    ∧ (jsLookup filters "limit" = JVal.undefined →
        ("limit", "12") ∈ moviesParams filters) := by
  refine ⟨mem_filterParams filters k v, rfl, ?_⟩
  intro h
  unfold moviesParams
  rw [h]
  exact List.mem_append_right _ (List.mem_singleton.mpr rfl)

/-- C7 witness: the amended theorem applied to the filters object with the
single entry genre=drama, whose limit lookup is `undefined`. -/
theorem C7_amended_witness :
    ("limit", "12") ∈ moviesParams [("genre", JVal.s "drama")] :=
  (C7_filters_excluded_amended [("genre", JVal.s "drama")] "genre" "drama").2.2 rfl

/-- C8: the search-suggestions hook resets the list to empty and issues no
network call whenever the query is falsy (missing) or shorter than two
characters; and whenever the request fails, the hook ends with an empty
suggestion list (its state carries no error cell at all, so no error can
be surfaced). -/
theorem C8_suggestions_guard_and_silent_failure (q : JVal)
    (net : String → Except JsError JVal) (s : SuggestState) (err : JsError) :
    ((q.truthy = false ∨ jsStrLength q < 2) →
        fetchSuggestionsStep q net s = ({ s with suggestions := JVal.arr [] }, false))
    ∧ ((∀ u, net u = .error err) →
        (fetchSuggestionsStep q net s).1.suggestions = JVal.arr []) := by
  constructor
  · intro h
    unfold fetchSuggestionsStep
    rw [if_pos h]
  · intro hnet
    unfold fetchSuggestionsStep
    by_cases h : q.truthy = false ∨ jsStrLength q < 2
    · rw [if_pos h]
    · rw [if_neg h, hnet]

/-- C8 witness: the guard branch at the one-character query `a`, and the
silent-failure branch at the query `ab` against an always-failing network. -/
theorem C8_witness :
    fetchSuggestionsStep (JVal.s "a")
        (fun _ => .error ⟨"Error", "network down", JVal.undefined⟩) ⟨JVal.arr [], false⟩
      = (⟨JVal.arr [], false⟩, false)
    ∧ (fetchSuggestionsStep (JVal.s "ab")
        (fun _ => .error ⟨"Error", "network down", JVal.undefined⟩) ⟨JVal.arr [], false⟩).1.suggestions
      = JVal.arr [] := by
  constructor
  · exact (C8_suggestions_guard_and_silent_failure (JVal.s "a") _
      ⟨JVal.arr [], false⟩ ⟨"Error", "network down", JVal.undefined⟩).1 (Or.inr (by decide))
  · exact (C8_suggestions_guard_and_silent_failure (JVal.s "ab") _
      ⟨JVal.arr [], false⟩ ⟨"Error", "network down", JVal.undefined⟩).2 (fun u => rfl)

/-- C9: invoking the `refetch` closure returned by `useStats` throws
`ReferenceError: fetchStats is not defined` for every hook state, because
`fetchStats` is local to the mount-effect callback and not in scope at the
return expression; consequently the invocation never changes the stats
state (the state is returned untouched). -/
theorem C9_refetch_reference_error (s : StatsState) :
    useStatsRefetchInvoke s
      = .escaped "ReferenceError: fetchStats is not defined" s := rfl

/-- C10 counterexample: for the filters object with the single entry
limit=0 — whose limit is present and is not the empty string, `null` or
`undefined` — the outgoing query string is `limit=0&limit=12`: the limit
parameter does occur twice, but with two different values, because the
unconditional append evaluates `filters.limit || 12` and `0` is falsy. -/
theorem C10_limit_zero_mismatch :
    queryString (moviesParams [("limit", JVal.n 0)]) = "limit=0&limit=12" := rfl

/-- C10 amended: for every filters object passed to `useMovies` whose limit
entry is present and truthy (hence also kept by the filter loop), the
outgoing parameter list contains the pair limit=value at least twice —
once appended by the generic filter loop and once by the unconditional
append, with the same value. For a present but falsy limit such as 0 the
second occurrence is the default 12 instead. -/
theorem C10_duplicate_limit_amended (filters : List (String × JVal)) (v : JVal)
    (hmem : ("limit", v) ∈ filters) (hlook : jsLookup filters "limit" = v)
    (htruthy : v.truthy = true) :
    2 ≤ List.count ("limit", v.asString) (moviesParams filters) := by
  have hkept : keptFilter v = true := keptFilter_of_truthy v htruthy
  have h1 : ("limit", v.asString) ∈ filterParams filters :=
    (mem_filterParams filters "limit" v.asString).mpr ⟨v, hmem, hkept, rfl⟩
  have h2 : jsOr v (JVal.n 12) = v := by
    unfold jsOr
    rw [htruthy]
    rfl
  unfold moviesParams
  rw [hlook, h2, List.count_append]
  have hc1 : 0 < List.count ("limit", v.asString) (filterParams filters) :=
    List.count_pos_iff.mpr h1
  have hc2 : List.count ("limit", v.asString) [("limit", v.asString)] = 1 := by
    simp [List.count_cons]
  omega

/-- C10 witness: the amended theorem applied to the filters object with the
single entry limit=20, a truthy limit: the pair limit=20 occurs twice. -/
theorem C10_witness :
    2 ≤ List.count ("limit", "20") (moviesParams [("limit", JVal.n 20)]) :=
  C10_duplicate_limit_amended [("limit", JVal.n 20)] (JVal.n 20)
    (List.mem_singleton.mpr rfl) rfl rfl

end MovieHub
